import Mathlib

/-!
# Verification of the VEDA AI backend core

A shallow embedding of the quota ledger, web-search gateway, model router,
quality-gate agents and orchestrator of the `veda-ai-backend` repository,
together with theorems settling the behavioural claims about them.

External effects (HTTP calls, LLM completions, file IO, Jira) are modelled
by oracle parameters describing the outcome of each call; every Python
function whose internals catch exceptions and return a value is modelled
as a total Lean function, while a call whose failure is observed by a
`try/except` in the modelled code is given an `Except` outcome.
-/

namespace Veda

/-! ## String helpers mirroring the Python primitives used by the code -/

/-- Occurrence of `sub` in the character list, starting at any position:
the Python `sub in s` test on strings (an empty needle always matches). -/
def occursAux : List Char → List Char → Bool
  | _, [] => true
  | [], _ :: _ => false
  | a :: rest, c :: cs => List.isPrefixOf (c :: cs) (a :: rest) || occursAux rest (c :: cs)

/-- Python `sub in s` for strings. -/
def containsSub (s sub : String) : Bool :=
  occursAux s.data sub.data

/-- Python `str.lower()` (ASCII-adequate for the keyword tables involved). -/
def pyLower (s : String) : String :=
  String.mk (s.data.map Char.toLower)

/-- Python `str.upper()`. -/
def pyUpper (s : String) : String :=
  String.mk (s.data.map Char.toUpper)

/-- Default whitespace recognised by Python `str.strip()` on the inputs at hand. -/
def pyIsSpace (c : Char) : Bool :=
  c = ' ' || c = '\t' || c = '\n' || c = '\r' || c = '\x0b' || c = '\x0c'

/-- Python `str.strip()`. -/
def pyStrip (s : String) : String :=
  String.mk (((s.data.dropWhile pyIsSpace).reverse.dropWhile pyIsSpace).reverse)

/-- Python slicing `s[:n]`. -/
def pyTake (n : Nat) (s : String) : String :=
  String.mk (s.data.take n)

/-- Fuel-driven splitter behind `pySplit`; the fuel is the haystack length,
which suffices because every recursive call consumes at least one character. -/
def splitFuel (sep : List Char) : Nat → List Char → List (List Char)
  | _, [] => [[]]
  | 0, l => [l]
  | n + 1, a :: rest =>
    if sep.isPrefixOf (a :: rest) && !sep.isEmpty then
      [] :: splitFuel sep n (List.drop sep.length (a :: rest))
    else
      match splitFuel sep n rest with
      | [] => [[a]]
      | piece :: more => (a :: piece) :: more

/-- Python `s.split(sep)` for a non-empty separator. -/
def pySplit (s sep : String) : List String :=
  (splitFuel sep.data s.data.length s.data).map String.mk

/-- Python `"\n".join(...)`-style joining used when building evidence blocks. -/
def joinLines (sep : String) (ls : List String) : String :=
  match ls with
  | [] => ""
  | x :: xs => xs.foldl (fun acc y => acc ++ sep ++ y) x

/-! ## Quota ledger (`app/services/web_search.py`, class `QuotaManager`)

The persisted JSON object holds a `"month"` key next to one integer
counter per service; we split it into a `month` field and an association
list with `dict.get(service, 0)` lookup semantics. -/

/-- The persisted usage record of `QuotaManager`. -/
structure Usage where
  month : String
  counts : List (String × Nat)
deriving Repr, DecidableEq

/-- `self.usage.get(service, 0)`. -/
def getCount (u : Usage) (service : String) : Nat :=
  match u.counts.lookup service with
  | some n => n
  | none => 0

/-- Replace-or-append update of an association list (Python dict assignment). -/
def updateCounts : List (String × Nat) → String → Nat → List (String × Nat)
  | [], s, n => [(s, n)]
  | (k, v) :: rest, s, n =>
    if k == s then (s, n) :: rest else (k, v) :: updateCounts rest s n

/-- `MONTHLY_QUOTAS.get(service, float('inf'))`: `none` models the missing
key, for which the Python code falls back to infinity. -/
def monthlyQuota (service : String) : Option Nat :=
  if service = "brave" then some 2000
  else if service = "tavily" then some 100
  else none

/-- `QuotaManager._create_new_month`: fresh zeroed tracking for `nowMonth`
(the `datetime.now().strftime("%Y-%m")` value at the call). -/
def createNewMonth (nowMonth : String) : Usage :=
  ⟨nowMonth, [("brave", 0), ("tavily", 0), ("groq_fallback", 0)]⟩

/-- `QuotaManager._load_usage`: `stored = none` models a missing or
unreadable quota file; a stored record whose month differs from the
wall-clock month is replaced by a fresh one.  This is the only place the
class compares the stored period with the current month. -/
def load_usage (stored : Option Usage) (nowMonth : String) : Usage :=
  match stored with
  | some data => if data.month ≠ nowMonth then createNewMonth nowMonth else data
  | none => createNewMonth nowMonth

/-- `QuotaManager.can_use`: compares the in-memory counter against the
limit; it performs no month check of its own. -/
def can_use (u : Usage) (service : String) : Bool :=
  match monthlyQuota service with
  | some limit => getCount u service < limit
  | none => true

/-- `QuotaManager.record_usage`: increments the in-memory counter and
persists; it performs no month check and no reset. -/
def record_usage (u : Usage) (service : String) : Usage :=
  ⟨u.month, updateCounts u.counts service (getCount u service + 1)⟩

/-- `QuotaManager.get_remaining` for a service with a finite limit. -/
def get_remaining (u : Usage) (service : String) (limit : Nat) : Nat :=
  limit - getCount u service

theorem lookup_updateCounts (l : List (String × Nat)) (s : String) (n : Nat) :
    (updateCounts l s n).lookup s = some n := by
  induction l with
  | nil => simp [updateCounts]
  | cons p rest ih =>
    obtain ⟨k, v⟩ := p
    by_cases h : k = s
    · simp [updateCounts, h]
    · have hbeq : (k == s) = false := by
        simp [h]
      have hsk : (s == k) = false := by
        simp only [beq_eq_false_iff_ne, ne_eq]
        intro hh
        exact h hh.symm
      simp [updateCounts, hbeq, List.lookup, hsk, ih]

theorem getCount_record_usage (u : Usage) (s : String) :
    getCount (record_usage u s) s = getCount u s + 1 := by
  simp [getCount, record_usage, lookup_updateCounts]

theorem month_record_usage (u : Usage) (s : String) :
    (record_usage u s).month = u.month := rfl

/-! ## Web search gateway (`app/services/web_search.py`, class `WebSearchService`)

The HTTP layer is an oracle: for Brave, `none` stands for a non-200 status,
rate limit, timeout or exception (all of which yield `[]` without charging
quota), while `some rs` stands for a 200 reply whose parsed result items are
`rs` (quota charged even when `rs` is empty).  Result items carry the fields
the callers and claims consult; purely decorative payload (favicon, score,
publish metadata) rides inside the oracle-provided items unreferenced. -/

/-- One search-result dictionary.  `is_fallback` is the per-result marker
written (only) by `groq_knowledge_fallback`; every other producer omits the
key, which reads back as `false`. -/
structure SResult where
  title : String
  url : String
  description : String
  source : String
  is_fallback : Bool
deriving Repr, DecidableEq

/-- The uniform response dictionary of the gateway.  Optional fields model
keys absent from some of the literal dictionaries in the source. -/
structure SearchResponse where
  results : List SResult
  source : Option String
  count : Nat
  query : Option String
  success : Bool
  is_fallback : Bool
  fallback_reason : Option String
  error : Option String
deriving Repr, DecidableEq

/-- Tavily 200-reply payload: `answer` is `some` exactly when
`data.get("answer")` is truthy, `results` are the mapped items. -/
structure TavilyData where
  answer : Option String
  results : List SResult
deriving Repr, DecidableEq

/-- All inputs of one `WebSearchService` call: configured keys, the quota
state, and the outcome oracles of the external requests. -/
structure SearchEnv where
  brave_key : Bool
  tavily_key : Bool
  usage : Usage
  brave_outcome : Option (List SResult)
  tavily_outcome : Option TavilyData
  news_outcome : Option (List SResult)
  groq_fallback_outcome : Except String String
deriving Repr

/-- `WebSearchService.search_brave`: key gate, quota gate, then the HTTP
oracle; a 200 reply charges quota and returns the first `count` items. -/
def search_brave (env : SearchEnv) (count : Nat) : List SResult × Usage :=
  if !env.brave_key then ([], env.usage)
  else if !can_use env.usage "brave" then ([], env.usage)
  else match env.brave_outcome with
    | some rs => (rs.take count, record_usage env.usage "brave")
    | none => ([], env.usage)

/-- `WebSearchService.search_tavily`: on a 200 reply, quota is charged and
the optional AI-summary item is prepended before truncating to `count`. -/
def search_tavily (env : SearchEnv) (u : Usage) (count : Nat) : List SResult × Usage :=
  if !env.tavily_key then ([], u)
  else if !can_use u "tavily" then ([], u)
  else match env.tavily_outcome with
    | some td =>
      let base := match td.answer with
        | some a => [⟨"AI Summary", "", a, "tavily_answer", false⟩]
        | none => []
      ((base ++ td.results).take count, record_usage u "tavily")
    | none => ([], u)

/-- `WebSearchService.groq_knowledge_fallback`: records a `groq_fallback`
usage tick, then either wraps the successful Groq completion into one
synthetic result, or (when the Groq call raises) returns an empty, failed
response carrying the error. -/
def groq_knowledge_fallback (u : Usage) (outcome : Except String String) :
    Usage × SearchResponse :=
  let u1 := record_usage u "groq_fallback"
  match outcome with
  | Except.ok text =>
    (u1, ⟨[⟨"AI Knowledge Response", "", text, "groq_knowledge", true⟩],
          some "groq_knowledge", 1, none, true, true, some "search_quota_exceeded", none⟩)
  | Except.error e =>
    (u1, ⟨[], none, 0, none, false, false, none, some e⟩)

/-- One `smart_search` run, instrumented with the tier-1 result list and the
list of services whose search call was actually entered. -/
structure SmartSearchRun where
  response : SearchResponse
  usage : Usage
  brave_results : List SResult
  attempted : List String
deriving Repr, DecidableEq

/-- `WebSearchService.smart_search`: Brave if keyed and under quota, Tavily
only if the running result list is still empty, Groq knowledge fallback as
the final tier. -/
def smart_search (env : SearchEnv) (query : String) (count : Nat) : SmartSearchRun :=
  let braveTried := env.brave_key && can_use env.usage "brave"
  let (results1, u1) := if braveTried then search_brave env count else ([], env.usage)
  let source1 : Option String := if results1.isEmpty then none else some "brave"
  let tavilyTried := results1.isEmpty && (env.tavily_key && can_use u1 "tavily")
  let (results2, u2) := if tavilyTried then search_tavily env u1 count else (results1, u1)
  let source2 : Option String :=
    if results1.isEmpty then (if results2.isEmpty then none else some "tavily") else source1
  let att := (if braveTried then ["brave"] else []) ++ (if tavilyTried then ["tavily"] else [])
  if results2.isEmpty then
    let (u3, resp) := groq_knowledge_fallback u2 env.groq_fallback_outcome
    ⟨resp, u3, results1, att ++ ["groq"]⟩
  else
    ⟨⟨results2, source2, results2.length, some query, !results2.isEmpty, false, none, none⟩,
     u2, results1, att⟩

/-- `WebSearchService.search_news`: the Brave news cluster when keyed and
under quota (its `count` field is the untruncated result total), otherwise
the knowledge fallback over a news-flavoured query. -/
def search_news (env : SearchEnv) (count : Nat) : Usage × SearchResponse :=
  if !env.brave_key || !can_use env.usage "brave" then
    groq_knowledge_fallback env.usage env.groq_fallback_outcome
  else match env.news_outcome with
    | some rs =>
      (record_usage env.usage "brave",
       ⟨rs.take count, some "brave_news", rs.length, none, true, false, none, none⟩)
    | none => groq_knowledge_fallback env.usage env.groq_fallback_outcome

/-! ## Model router (`app/services/model_router.py`, `ModelRouter.generate`)

The provider services expose availability flags and fixed model-name
attributes; each network call is an outcome oracle.  Crucially, the local
variables `is_complex`/`is_vision` are assigned only inside the
`provider == "auto"` block: we carry them as an `Option (Bool × Bool)`
(`none` = unbound), and every read of an unbound variable is the Python
`NameError`, an exception caught by the surrounding `except` clauses
*before* the provider call on that line is reached. -/

/-- Availability/credential flags of the provider services
(`groq_service.available`, `openrouter_service.available`,
`xai_service.available`, `ollama_service.is_available`,
`openai_service.api_key`, `settings.GEMINI_API_KEY`). -/
structure Services where
  groq_available : Bool
  openrouter_available : Bool
  xai_available : Bool
  ollama_available : Bool
  openai_api_key : Bool
  gemini_api_key : Bool
deriving Repr, DecidableEq

/-- Outcomes of the provider invocations a single `generate` run can make.
(`gemini` may be called twice — primary branch and safety net — and Ollama
twice — primary branch and backup — hence the separate fields.)  An Ollama
success carries the pair `(result.get("response", ""),
result.get("model_used", default))`. -/
structure CallOutcomes where
  groq : Except String String
  openrouter : Except String String
  xai : Except String String
  gemini_primary : Except String String
  ollama_primary : Except String (String × String)
  ollama_backup : Except String (String × String)
  gemini_safety : Except String String
deriving Repr

/-- Jira integration inputs: `jira_service.available`, the (exception-free)
`get_project_context()` text, and the `create_issue` outcome observed by
the action-parsing `try` block. -/
structure JiraEnv where
  available : Bool
  project_context : String
  create_result : Except String String
deriving Repr

/-- Keyword table for the `is_complex` scan. -/
def complexKeywords : List String :=
  ["diet", "plan", "chart", "report", "analyze", "medical", "symptom", "reason", "logic", "math"]

/-- Keyword table for the `is_vision` scan. -/
def visionKeywords : List String :=
  ["image", "photo", "scan", "look", "see"]

/-- Keyword table for the `is_search` scan. -/
def searchKeywords : List String :=
  ["search", "find", "look up", "google", "brave", "online", "internet", "price",
   "latest", "news", "current", "today", "weather"]

/-- Keyword table for the `is_project_management` scan. -/
def pmKeywords : List String :=
  ["sprint", "task", "jira", "bug", "issue", "project", "status", "todo"]

/-- `any(keyword in check_msg for keyword in kws)`. -/
def anyKeyword (msg : String) (kws : List String) : Bool :=
  kws.any (fun k => containsSub msg k)

/-- The Jira action parser inside the Groq branch: splits on `"|"`, where a
missing `parts[1]` raises an `IndexError` caught by the inner `except`. -/
def actionParse (response : String) (jira : JiraEnv) : String :=
  if containsSub response "ACTION: CREATE_TASK" then
    let parts := pySplit response "|"
    if parts.length ≥ 2 then
      match jira.create_result with
      | Except.ok r => response ++ "\n\n[SYSTEM] " ++ r
      | Except.error e => response ++ "\n\n[SYSTEM] Failed to execute action: " ++ e
    else
      response ++ "\n\n[SYSTEM] Failed to execute action: list index out of range"
  else response

/-- The state the auto-routing block leaves behind: the resolved provider,
the two bound locals, and the (possibly evidence-augmented) system prompt. -/
structure AutoState where
  provider : String
  is_complex : Bool
  is_vision : Bool
  sys : String
deriving Repr, DecidableEq

/-- The `provider == "auto"` block: keyword classification, search-context
and Jira-context injection (each forcing `is_complex`), then the fixed
capability-specific provider priority chains. -/
def autoRoute (message sys0 : String) (fast : Bool) (sv : Services)
    (senv : SearchEnv) (jira : JiraEnv) : AutoState :=
  let check := pyLower message
  let ic0 := anyKeyword check complexKeywords
  let iv := anyKeyword check visionKeywords
  let is_search := anyKeyword check searchKeywords
  let is_news := containsSub check "news" || containsSub check "latest"
  let (sys1, ic1) :=
    if is_search then
      let sd := if is_news then (search_news senv 5).2 else (smart_search senv message 5).response
      if sd.success then
        let ctx := joinLines "\n"
          (sd.results.map (fun r => "- " ++ r.title ++ ": " ++ r.description ++ " (" ++ r.url ++ ")"))
        (sys0 ++ "\n\n[REAL-TIME SEARCH RESULTS]\n" ++ ctx ++
          "\n\n[INSTRUCTION]\nUse the above search results to answer the user\x27s question. Citations are encouraged.",
         true)
      else (sys0, ic0)
    else (sys0, ic0)
  let is_pm := anyKeyword check pmKeywords
  let (sys2, ic2) :=
    if is_pm && jira.available then
      let s := sys1 ++ "\n\n[REAL-TIME JIRA DATA]\n" ++ jira.project_context
      let s := if containsSub check "create" || containsSub check "new" || containsSub check "add" then
          s ++ "\n[ACTION AVAILABLE]\nIf the user wants to create a task/bug, output ONLY this format: ACTION: CREATE_TASK | <summary> | <description (optional)>"
        else s
      (s ++ "\n[INSTRUCTION]\nUse the above data to answer the user\x27s question about the project status.",
       true)
    else (sys1, ic1)
  let provider :=
    if iv then
      if sv.gemini_api_key then "gemini"
      else if sv.ollama_available then "ollama"
      else "gemini"
    else if ic2 then
      if sv.openrouter_available then "openrouter"
      else if sv.xai_available then "xai"
      else if sv.groq_available then "groq"
      else if sv.ollama_available then "ollama"
      else if sv.openai_api_key then "openai"
      else "gemini"
    else if fast then
      if sv.groq_available then "groq"
      else if sv.xai_available then "xai"
      else "gemini"
    else
      if sv.groq_available then "groq"
      else if sv.xai_available then "xai"
      else "gemini"
  ⟨provider, ic2, iv, sys2⟩

/-- `groq_service` model attributes (`fast_model`/`default_model`, with
`reasoning_model` present, so the `hasattr` test succeeds). -/
def groqTargetModel (fast is_complex : Bool) : String :=
  let t := if fast then "llama-3.1-8b-instant" else "llama-3.3-70b-versatile"
  if is_complex then "llama-3.3-70b-versatile" else t

/-- `openrouter_service` model attributes. -/
def openrouterTargetModel (fast is_complex : Bool) : String :=
  let t := if fast then "meta-llama/llama-3.3-70b-instruct" else "google/gemini-2.0-flash-001"
  if is_complex then "deepseek/deepseek-r1" else t

/-- `xai_service` model attributes. -/
def xaiTargetModel (fast is_complex : Bool) : String :=
  let t := if fast then "grok-beta" else "grok-2-1212"
  if is_complex then "grok-2-1212" else t

/-- The dictionary `generate` returns.  The apology dictionary carries no
`provider`/`model` keys, modelled as `none`. -/
structure GenResult where
  response : String
  provider : Option String
  model : Option String
  fallback : Bool
  error : Option String
deriving Repr, DecidableEq

/-- A `generate` run instrumented with the providers whose network call was
actually entered, in order. -/
structure GenRun where
  result : GenResult
  attempts : List String
deriving Repr, DecidableEq

/-- The apology string of the final `except` clause. -/
def apologyText : String :=
  "I apologize, but I am currently experiencing high traffic. Please try again in a moment."

/-- The primary `try` block (the `if/elif` provider chain).  Returns the
produced dictionary, or `none` when the chain either raised (caught at the
`except`) or matched no branch; the second component lists the providers
actually invoked.  A `vars = none` read of `is_complex`/`is_vision` is the
`NameError`, raised before the provider call on that line. -/
def primaryAttempt (provider : String) (fast : Bool) (vars : Option (Bool × Bool))
    (sv : Services) (oc : CallOutcomes) (jira : JiraEnv) :
    Option GenResult × List String :=
  if provider = "groq" && sv.groq_available then
    match vars with
    | none => (none, [])
    | some (ic, _) =>
      let target := groqTargetModel fast ic
      match oc.groq with
      | Except.error _ => (none, ["groq"])
      | Except.ok resp =>
        (some ⟨actionParse resp jira, some "groq", some target, false, none⟩, ["groq"])
  else if provider = "openrouter" && sv.openrouter_available then
    match vars with
    | none => (none, [])
    | some (ic, _) =>
      match oc.openrouter with
      | Except.error _ => (none, ["openrouter"])
      | Except.ok resp =>
        (some ⟨resp, some "openrouter", some (openrouterTargetModel fast ic), false, none⟩,
         ["openrouter"])
  else if provider = "xai" && sv.xai_available then
    match vars with
    | none => (none, [])
    | some (ic, _) =>
      match oc.xai with
      | Except.error _ => (none, ["xai"])
      | Except.ok resp =>
        (some ⟨resp, some "xai", some (xaiTargetModel fast ic), false, none⟩, ["xai"])
  else if provider = "gemini" then
    match oc.gemini_primary with
    | Except.error _ => (none, ["gemini"])
    | Except.ok resp =>
      (some ⟨resp, some "gemini", some "gemini-1.5-flash", false, none⟩, ["gemini"])
  else if provider = "ollama" && sv.ollama_available then
    match vars with
    | none => (none, [])
    | some _ =>
      match oc.ollama_primary with
      | Except.error _ => (none, ["ollama"])
      | Except.ok (resp, mu) =>
        (some ⟨resp, some "ollama", some mu, false, none⟩, ["ollama"])
  else (none, [])

/-- The routing execution: primary chain, then the Ollama Cloud backup
(whose `model_type` line reads `is_complex` before invoking), then the
Gemini safety net, then the apology dictionary carrying the final error. -/
def generateExec (provider : String) (fast : Bool) (vars : Option (Bool × Bool))
    (sv : Services) (oc : CallOutcomes) (jira : JiraEnv) : GenRun :=
  match primaryAttempt provider fast vars sv oc jira with
  | (some r, att) => ⟨r, att⟩
  | (none, att) =>
    let (backup, att2) :=
      if sv.ollama_available then
        match vars with
        | none => ((none : Option GenResult), ([] : List String))
        | some _ =>
          match oc.ollama_backup with
          | Except.error _ => (none, ["ollama"])
          | Except.ok (resp, mu) => (some ⟨resp, some "ollama", some mu, true, none⟩, ["ollama"])
      else (none, [])
    match backup with
    | some r => ⟨r, att ++ att2⟩
    | none =>
      match oc.gemini_safety with
      | Except.ok resp =>
        ⟨⟨resp, some "gemini", some "gemini-1.5-flash-cleanup", true, none⟩,
         att ++ att2 ++ ["gemini"]⟩
      | Except.error e =>
        ⟨⟨apologyText, none, none, true, some e⟩, att ++ att2 ++ ["gemini"]⟩

/-- `ModelRouter.generate`: the auto block binds the locals and resolves the
provider; a forced provider skips it, leaving `is_complex`/`is_vision`
unbound. -/
def generate (message sys : String) (provider : String) (fast : Bool)
    (sv : Services) (senv : SearchEnv) (jira : JiraEnv) (oc : CallOutcomes) : GenRun :=
  if provider = "auto" then
    let a := autoRoute message sys fast sv senv jira
    generateExec a.provider fast (some (a.is_complex, a.is_vision)) sv oc jira
  else
    generateExec provider fast none sv oc jira

/-- The provider the primary chain is asked for (step-3 selection). -/
def effectiveProvider (message sys : String) (provider : String) (fast : Bool)
    (sv : Services) (senv : SearchEnv) (jira : JiraEnv) : String :=
  if provider = "auto" then (autoRoute message sys fast sv senv jira).provider else provider

/-! ## Critic (`app/agents/critic.py`, `CriticAgent.process`)

`BaseAgent.generate` catches every exception and returns a plain string, so
the reviewer text is a total oracle. -/

/-- The dictionary `CriticAgent.process` returns. -/
structure CriticResult where
  agent : String
  approved : Bool
  final_response : String
  review_notes : String
deriving Repr, DecidableEq

/-- The generic disclaimer appended when a rejected review carries no
`IMPROVED:` body. -/
def criticDisclaimer : String :=
  "\n\n_Disclaimer: This is general guidance. Please consult a qualified professional for personalized advice._"

/-- The approval parse: both membership tests run over the lower-cased
review text (the first, capitalised pattern can therefore never match). -/
def criticApprovedParse (review_result : String) : Bool :=
  let rl := pyLower review_result
  containsSub rl "APPROVED: yes" || containsSub rl "approved: yes"

/-- The `IMPROVED:` body extraction: everything after the last marker,
stripped. -/
def criticImprovedBody (review_result : String) : String :=
  pyStrip ((pySplit review_result "IMPROVED:").getLastD "")

/-- `CriticAgent.process` over the reviewer-model oracle `review_result`
(consulted only on the non-fast-tracked path). -/
def critic_process (draft_response intent : String) (tool_success : Bool)
    (review_result : String) : CriticResult :=
  if intent = "general" then
    ⟨"Quality Reviewer", true, draft_response, "General query - auto-approved"⟩
  else if intent = "tool" && tool_success then
    ⟨"Quality Reviewer", true, draft_response, "Tool calculation - auto-approved"⟩
  else if criticApprovedParse review_result then
    ⟨"Quality Reviewer", true, draft_response, "Passed quality review"⟩
  else if containsSub review_result "IMPROVED:" then
    ⟨"Quality Reviewer", true, criticImprovedBody review_result, "Improved by reviewer"⟩
  else
    ⟨"Quality Reviewer", true, draft_response ++ criticDisclaimer, "Added disclaimer"⟩

/-! ## Cross-Verifier (`app/agents/cross_verifier.py`, `CrossVerifierAgent.process`) -/

/-- The dictionary `CrossVerifierAgent.process` returns. -/
structure CrossVerifyOutcome where
  verified : Bool
  response : String
  corrections : Option String
deriving Repr, DecidableEq

/-- The opposing-provider pick: Gemini for a Groq original, Groq for
everything else. -/
def opposingProvider (provider_used : String) : String :=
  if provider_used = "groq" then "gemini" else "groq"

/-- The verification prompt assembled from the original query and draft. -/
def verificationPrompt (original_query response : String) : String :=
  "Review this interaction for medical safety.\n\nUser Query: " ++ original_query ++
  "\nAI Response: " ++ response ++
  "\n\nTask:\n1. Check for medical errors or dangerous advice.\n2. Ensure disclaimers are present.\n3. If safe, reply exactly SAFE.\n4. If unsafe/inaccurate, provide ONLY the CORRECTED version."

/-- `CrossVerifierAgent.process`, returning the inner router run next to
the outcome so the serving provider is observable: the opposing provider
is forced through `model_router.generate`, and the draft is kept iff the
first ten characters of the reply contain `SAFE` case-insensitively. -/
def cross_verifier_run (response original_query provider_used : String)
    (sv : Services) (senv : SearchEnv) (jira : JiraEnv) (oc : CallOutcomes) :
    GenRun × CrossVerifyOutcome :=
  let run := generate (verificationPrompt original_query response) "" (opposingProvider provider_used)
    false sv senv jira oc
  let result_text := run.result.response
  if containsSub (pyUpper (pyTake 10 result_text)) "SAFE" then
    (run, ⟨true, response, none⟩)
  else
    (run, ⟨false, result_text, some "Safety concerns addressed by Cross-Verifier."⟩)

/-- `CrossVerifierAgent.process` proper (outcome only). -/
def cross_verifier_process (response original_query provider_used : String)
    (sv : Services) (senv : SearchEnv) (jira : JiraEnv) (oc : CallOutcomes) :
    CrossVerifyOutcome :=
  (cross_verifier_run response original_query provider_used sv senv jira oc).2

/-! ## Fact-Checker (`app/agents/fact_checker.py`, `FactCheckerAgent`)

Confidence values are modelled in `ℚ` (the Python floats `0.9`, `0.1`,
`0.5`, `0.3`, `0.8`, `0.95`). -/

/-- One `_verify_claim` result dictionary. -/
structure VerifyClaimResult where
  claim : String
  verified : Bool
  confidence : ℚ
  evidence : String
  sources : List SResult
deriving Repr, DecidableEq

/-- The inputs one `_verify_claim` call consumes: the `smart_search` reply
(or an exception in the `try` block) and the Groq verdict text (or an
exception). -/
structure ClaimCheckEnv where
  search : Except String SearchResponse
  verification : Except String String

/-- The verdict parse: `supported`-containing answers score `0.9`,
otherwise `contradicted`-containing answers score `0.1`, anything else
`0.5`; only the first is marked verified. -/
def parse_verdict (verification : String) : ℚ × Bool :=
  let vl := pyLower verification
  if containsSub vl "supported" then (9/10, true)
  else if containsSub vl "contradicted" then (1/10, false)
  else (1/2, false)

/-- The joined evidence block over the top three sources. -/
def evidenceText (sources : List SResult) : String :=
  joinLines "\n" ((sources.take 3).map (fun s => "- " ++ s.title ++ ": " ++ pyTake 200 s.description))

/-- `FactCheckerAgent._verify_claim`: failed search or an exception scores
`0.3`; otherwise the verdict oracle is parsed. -/
def verify_claim (claim : String) (env : ClaimCheckEnv) : VerifyClaimResult :=
  match env.search with
  | Except.error e => ⟨claim, false, 3/10, "Error: " ++ e, []⟩
  | Except.ok sr =>
    if !sr.success then
      ⟨claim, false, 3/10, "No search results found", []⟩
    else
      let evidence := evidenceText sr.results
      match env.verification with
      | Except.error e => ⟨claim, false, 3/10, "Error: " ++ e, []⟩
      | Except.ok v =>
        let (c, ok) := parse_verdict v
        ⟨claim, ok, c, pyTake 300 evidence, sr.results⟩

/-- `FactCheckerAgent._calculate_confidence`: the arithmetic mean, `0.8`
on an empty list. -/
def calculate_confidence (rs : List VerifyClaimResult) : ℚ :=
  if rs.isEmpty then 4/5
  else (rs.map (fun r => r.confidence)).sum / rs.length

/-- The dictionary `FactCheckerAgent.process` returns (the keys consulted
by the orchestrator, plus the verification details). -/
structure FactCheckResult where
  verified_response : String
  confidence : ℚ
  verified : Bool
  claims_checked : Nat
  verification_details : Option (List VerifyClaimResult)
  sources : List SResult
deriving Repr, DecidableEq

/-- `_rewrite_with_corrections`: the Groq rewrite, or the original plus a
warning note when the rewrite call raises. -/
def rewrite_with_corrections (original : String) (outcome : Except String String) : String :=
  match outcome with
  | Except.ok revised => revised
  | Except.error _ => original ++ "\n\n⚠️ Note: Some claims in this response could not be verified."

/-- `FactCheckerAgent.process` over oracles: `claims` is the (already
size-capped) `_extract_claims` output, `envs` the per-claim call inputs
(`envs` is consumed positionally for the top three claims). -/
def fact_checker_process (message : String) (existing_sources : List SResult)
    (claims : List String) (envs : List ClaimCheckEnv)
    (rewrite_outcome : Except String String) : FactCheckResult :=
  if claims.isEmpty then
    ⟨message, 19/20, true, 0, none, existing_sources⟩
  else
    let picked := claims.take 3
    let vrs := List.zipWith (fun c e => verify_claim c e) picked envs
    let all_sources := existing_sources ++ (vrs.map (fun r => r.sources)).flatten
    let confidence := calculate_confidence vrs
    let verified_response :=
      if confidence < 3/5 then rewrite_with_corrections message rewrite_outcome else message
    ⟨verified_response, confidence, decide (confidence ≥ 3/5), claims.length, some vrs, all_sources⟩

/-! ## Orchestrator (`app/orchestrator.py`, `Orchestrator.process_message`) -/

/-- The registered agent names (`self.agents` keys). -/
def orchestratorAgents : List String :=
  ["WellnessAgent", "ProtectionAgent", "GeneralAgent", "ToolAgent", "SearchAgent",
   "DeepResearchAgent", "DataAnalystAgent", "StudyAgent"]

/-- The greeting fast-path table. -/
def greetingsList : List String :=
  ["hi", "hello", "hey", "namaste", "pranam", "greetings", "good morning", "good evening"]

/-- Keyword table of fast path 2 (tools/calculations). -/
def toolTriggerKeywords : List String :=
  ["calculate", "bmi", "premium", "cost", "price", "sum", "multiply"]

/-- Keyword table of fast path 3 (search/news). -/
def searchFastKeywords : List String :=
  ["latest", "news", "current", "today", "weather", "who is", "what is",
   "price of", "cost of", "vs", "versus"]

/-- The LLM router reply: `routing.get("intent", "general")` and
`routing.get("route_to", "GeneralAgent")` defaults are applied by the
orchestrator, so absent keys are `none`. -/
structure RouterOracle where
  intent : Option String
  route_to : Option String
deriving Repr, DecidableEq

/-- The classification outcome, instrumented with whether the LLM router
was consulted. -/
structure Classified where
  intent : String
  agent_name : String
  router_invoked : Bool
deriving Repr, DecidableEq

/-- Step 3 of `process_message`: forced agent, then the three fast paths,
then the LLM router. -/
def classify_message (user_message : String) (force_agent : Option String)
    (ro : RouterOracle) : Classified :=
  match force_agent with
  | some fa =>
    if orchestratorAgents.contains fa then
      ⟨if fa = "DeepResearchAgent" then "research" else "analysis", fa, false⟩
    else classify_message_fallback user_message ro
  | none => classify_message_fallback user_message ro
where
  /-- The non-forced path of step 3. -/
  classify_message_fallback (user_message : String) (ro : RouterOracle) : Classified :=
    let msg_lower := pyLower (pyStrip user_message)
    let viaRouter : Classified :=
      ⟨ro.intent.getD "general", ro.route_to.getD "GeneralAgent", true⟩
    if greetingsList.contains msg_lower then
      ⟨"general", "GeneralAgent", false⟩
    else if anyKeyword msg_lower toolTriggerKeywords then
      if containsSub msg_lower "bmi" || containsSub msg_lower "calculate" then
        ⟨"tool", "ToolAgent", false⟩
      else viaRouter
    else if anyKeyword msg_lower searchFastKeywords then
      if !containsSub msg_lower "your" && !containsSub msg_lower "you" then
        ⟨"search", "SearchAgent", false⟩
      else viaRouter
    else viaRouter

/-- The specialist reply as the orchestrator reads it: each field models
one `agent_result.get(key, default)` access, with `none` for an absent
key. -/
structure AgentOutcome where
  response : Option String
  success : Option Bool
  provider : Option String
  sources : List SResult
deriving Repr, DecidableEq

/-- What `process_message` returns, instrumented with which pipeline
stages actually ran. -/
structure OrchestratorRun where
  response : String
  intent : String
  agent_used : String
  reviewed : Bool
  context_used : Bool
  sources : List SResult
  verified : Bool
  confidence : ℚ
  router_invoked : Bool
  critic_invoked : Bool
  cross_verifier_invoked : Bool
  fact_checker_invoked : Bool
deriving Repr, DecidableEq

/-- `Orchestrator.process_message` over oracles: classification, specialist
dispatch, the skip-gated Critic, Cross-Verifier and Fact-Checker stages,
and the returned metadata (`reviewed` defaults to `True` via
`review.get("approved", True)` on the empty dictionary when the Critic is
skipped; `verified`/`confidence` default when the Fact-Checker is
skipped). -/
def process_message (user_message : String) (force_agent : Option String)
    (verify_facts : Bool) (memory_hits : Nat) (ro : RouterOracle)
    (agentOut : AgentOutcome) (critic_review : String)
    (sv : Services) (senv : SearchEnv) (jira : JiraEnv) (oc : CallOutcomes)
    (fc_claims : List String) (fc_envs : List ClaimCheckEnv)
    (fc_rewrite : Except String String) : OrchestratorRun :=
  let cls := classify_message user_message force_agent ro
  let draft := agentOut.response.getD "I\x27m not sure how to help with that."
  let tool_success := agentOut.success.getD true
  let criticNeeded := !(cls.intent = "general" || cls.intent = "tool")
  let review : Option CriticResult :=
    if criticNeeded then some (critic_process draft cls.intent tool_success critic_review)
    else none
  let final1 := match review with
    | some r => r.final_response
    | none => draft
  let cvNeeded := cls.intent = "wellness" || cls.intent = "protection" || cls.intent = "research"
  let cv : Option CrossVerifyOutcome :=
    if cvNeeded then
      some (cross_verifier_process final1 user_message (agentOut.provider.getD "unknown")
        sv senv jira oc)
    else none
  let final2 := match cv with
    | some c => if c.verified then final1 else c.response
    | none => final1
  let fcNeeded := verify_facts && (cls.intent = "search" || cls.intent = "wellness")
  let fcResult : Option FactCheckResult :=
    if fcNeeded then
      some (fact_checker_process final2 (agentOut.sources) fc_claims fc_envs fc_rewrite)
    else none
  let final3 := match fcResult with
    | some v => if v.verified then v.verified_response else final2
    | none => final2
  ⟨final3, cls.intent, cls.agent_name,
   (match review with | some r => r.approved | none => true),
   decide (memory_hits > 0),
   agentOut.sources,
   (match fcResult with | some v => v.verified | none => false),
   (match fcResult with | some v => v.confidence | none => 0),
   cls.router_invoked, criticNeeded, cvNeeded, fcNeeded⟩

/-! ## Shared concrete fixtures used by witnesses and counterexamples -/

/-- A service table with Groq and Ollama configured. -/
def svFix : Services := ⟨true, false, false, true, false, true⟩

/-- A Jira environment with the integration disabled. -/
def jiraFix : JiraEnv := ⟨false, "", Except.error "jira down"⟩

/-- A search environment with no keys and a failing Groq fallback. -/
def senvFix : SearchEnv := ⟨false, false, ⟨"2025-11", []⟩, none, none, none, Except.error "no groq"⟩

/-- Call outcomes where every provider invocation raises. -/
def ocAllFail : CallOutcomes :=
  ⟨Except.error "a", Except.error "b", Except.error "c", Except.error "d",
   Except.error "e", Except.error "f", Except.error "g"⟩

/-- Call outcomes where only the Gemini safety net succeeds. -/
def ocSafetyOk : CallOutcomes :=
  ⟨Except.error "a", Except.error "b", Except.error "c", Except.error "d",
   Except.error "e", Except.error "f", Except.ok "fine"⟩

/-! ## C1 — quota reset on first use after month rollover -/

/-- The literal reading of C1: after the wall-clock month moves past the
stored period key, the first `record_usage` resets the counter before
incrementing (leaving it at 1), and the first `can_use` sees a reset
counter (hence approves any service whose limit is positive). -/
def C1_claim : Prop :=
  ∀ (u : Usage) (service nowMonth : String), nowMonth ≠ u.month →
    getCount (record_usage u service) service = 1 ∧
    (monthlyQuota service = some 0 ∨ can_use u service = true)

/-- C1 fails on the code: with a stored November record at 5 uses of
`brave`, a December `record_usage` yields 6, not 1 — neither `can_use` nor
`record_usage` consults the month at all. -/
theorem C1_counterexample : ¬ C1_claim := by
  intro h
  have h5 := (h ⟨"2025-11", [("brave", 5)]⟩ "brave" "2025-12" (by decide)).1
  exact absurd h5 (by decide)

theorem getCount_createNewMonth (nowMonth s : String) :
    getCount (createNewMonth nowMonth) s = 0 := by
  cases hb : s == "brave" <;> cases ht : s == "tavily" <;> cases hg : s == "groq_fallback" <;>
    simp [getCount, createNewMonth, List.lookup, hb, ht, hg]

/-- C1 (amended): counters reset to zero only when the usage record is
loaded (`QuotaManager` construction) in a month differing from the stored
period; `can_use` and `record_usage` work on the in-memory record without
re-checking the month, so `record_usage` always increments the running
count by one and leaves the stored period unchanged. -/
theorem C1_quota_reset_only_on_load (stored : Usage) (nowMonth : String)
    (hm : stored.month ≠ nowMonth) (u : Usage) (service : String) :
    load_usage (some stored) nowMonth = createNewMonth nowMonth ∧
    (∀ s, getCount (createNewMonth nowMonth) s = 0) ∧
    getCount (record_usage u service) service = getCount u service + 1 ∧
    (record_usage u service).month = u.month := by
  refine ⟨?_, fun s => getCount_createNewMonth nowMonth s,
    getCount_record_usage u service, month_record_usage u service⟩
  simp [load_usage, hm]

/-- C1 witness: the amended statement at a concrete rolled-over record. -/
theorem C1_witness :
    load_usage (some ⟨"2025-11", [("brave", 5)]⟩) "2025-12" = createNewMonth "2025-12" ∧
    getCount (record_usage ⟨"2025-11", [("brave", 5)]⟩ "brave") "brave" =
      getCount ⟨"2025-11", [("brave", 5)]⟩ "brave" + 1 :=
  ⟨(C1_quota_reset_only_on_load ⟨"2025-11", [("brave", 5)]⟩ "2025-12" (by decide)
      ⟨"2025-11", [("brave", 5)]⟩ "brave").1,
   (C1_quota_reset_only_on_load ⟨"2025-11", [("brave", 5)]⟩ "2025-12" (by decide)
      ⟨"2025-11", [("brave", 5)]⟩ "brave").2.2.1⟩

/-! ## C4 — shape of the tier-3 knowledge fallback response -/

/-- The literal reading of C4: every response produced by
`groq_knowledge_fallback` has exactly one result, that result carries the
per-result fallback marker, and the response is flagged as a fallback.
(The result dictionary in the source has no `is_ai_fallback` key at all;
its per-result marker is the key `is_fallback`, which this field models.) -/
def C4_claim : Prop :=
  ∀ (u : Usage) (outcome : Except String String),
    (groq_knowledge_fallback u outcome).2.results.length = 1 ∧
    (∀ r ∈ (groq_knowledge_fallback u outcome).2.results, r.is_fallback = true) ∧
    (groq_knowledge_fallback u outcome).2.is_fallback = true

/-- C4 fails on the code: when the Groq call raises, the `except` branch
returns a response with zero results, `success = false` and no fallback
marking. -/
theorem C4_counterexample : ¬ C4_claim := by
  intro h
  have h1 := (h ⟨"2025-11", []⟩ (Except.error "boom")).1
  exact absurd h1 (by decide)

/-- C4 (amended): when the underlying Groq call succeeds,
`groq_knowledge_fallback` returns exactly one synthetic result whose
per-result `is_fallback` key (the source has no `is_ai_fallback` key) is
true, with the response flagged `is_fallback = true`; when the Groq call
raises, it returns zero results with `success = false` and the error;
either way the `groq_fallback` usage counter is charged. -/
theorem C4_knowledge_fallback_shape (u : Usage) :
    (∀ text,
      (groq_knowledge_fallback u (Except.ok text)).2.results =
        [⟨"AI Knowledge Response", "", text, "groq_knowledge", true⟩] ∧
      (groq_knowledge_fallback u (Except.ok text)).2.is_fallback = true ∧
      (groq_knowledge_fallback u (Except.ok text)).2.success = true ∧
      (groq_knowledge_fallback u (Except.ok text)).2.count = 1) ∧
    (∀ e,
      (groq_knowledge_fallback u (Except.error e)).2.results = [] ∧
      (groq_knowledge_fallback u (Except.error e)).2.success = false ∧
      (groq_knowledge_fallback u (Except.error e)).2.error = some e ∧
      (groq_knowledge_fallback u (Except.error e)).2.is_fallback = false) ∧
    (∀ outcome, (groq_knowledge_fallback u outcome).1 = record_usage u "groq_fallback") :=
  ⟨fun _ => ⟨rfl, rfl, rfl, rfl⟩,
   fun _ => ⟨rfl, rfl, rfl, rfl⟩,
   fun outcome => by cases outcome <;> rfl⟩

/-! ## C6 — the Critic always approves and only edits -/

/-- C6: every return path of `CriticAgent.process` has `approved = true`;
when the reviewer did not answer approved, the final text is the
`IMPROVED:` body when that marker is present, and otherwise the original
draft with the generic disclaimer appended. -/
theorem C6_critic_always_approves (draft intent : String) (ts : Bool) (review : String) :
    (critic_process draft intent ts review).approved = true ∧
    (intent ≠ "general" → (intent = "tool" → ts = false) →
      criticApprovedParse review = false →
      (critic_process draft intent ts review).final_response =
        (if containsSub review "IMPROVED:" then criticImprovedBody review
         else draft ++ criticDisclaimer)) := by
  constructor
  · unfold critic_process
    repeat' split
    all_goals rfl
  · intro hg ht hp
    unfold critic_process
    have hga : ¬ intent = "general" := hg
    have hta : ((intent = "tool" : Bool) && ts) = false := by
      by_cases h : intent = "tool"
      · simp [h, ht h]
      · simp [h]
    simp only [hga, if_false, hta, Bool.false_eq_true, hp]
    split <;> rfl

/-- C6 witness: a rejected wellness review without an `IMPROVED:` body gets
the disclaimer appended. -/
theorem C6_witness :
    (critic_process "drink water" "wellness" false "APPROVED: no\nISSUES: none cited").final_response
      = (if containsSub "APPROVED: no\nISSUES: none cited" "IMPROVED:"
         then criticImprovedBody "APPROVED: no\nISSUES: none cited"
         else "drink water" ++ criticDisclaimer) :=
  (C6_critic_always_approves "drink water" "wellness" false
    "APPROVED: no\nISSUES: none cited").2 (by decide) (by intro h; exact absurd h (by decide))
    (by decide)

/-! ## C9 — Fact-Checker confidence bookkeeping -/

/-- C9: per-claim confidence is 0.9 for a SUPPORTED verdict, 0.1 for
CONTRADICTED, 0.5 otherwise (UNCLEAR); the overall confidence is the
arithmetic mean of the per-claim confidences with 0.8 on an empty list;
and an empty claim extraction returns the draft unmodified with high
confidence (0.95) and verification skipped. -/
theorem C9_fact_checker_confidence :
    (∀ v, containsSub (pyLower v) "supported" = true → parse_verdict v = (9/10, true)) ∧
    (∀ v, containsSub (pyLower v) "supported" = false →
      containsSub (pyLower v) "contradicted" = true → parse_verdict v = (1/10, false)) ∧
    (∀ v, containsSub (pyLower v) "supported" = false →
      containsSub (pyLower v) "contradicted" = false → parse_verdict v = (1/2, false)) ∧
    (∀ rs : List VerifyClaimResult, rs ≠ [] →
      calculate_confidence rs = (rs.map (fun r => r.confidence)).sum / rs.length) ∧
    calculate_confidence [] = 4/5 ∧
    (∀ message src envs rw,
      fact_checker_process message src [] envs rw =
        ⟨message, 19/20, true, 0, none, src⟩) ∧
    (∀ message src claims envs rw, claims ≠ [] →
      (fact_checker_process message src claims envs rw).confidence =
        calculate_confidence (List.zipWith (fun c e => verify_claim c e) (claims.take 3) envs)) := by
  refine ⟨fun v hs => ?_, fun v hs hc => ?_, fun v hs hc => ?_, fun rs hne => ?_, rfl,
    fun message src envs rw => rfl, fun message src claims envs rw hne => ?_⟩
  · simp [parse_verdict, hs]
  · simp [parse_verdict, hs, hc]
  · simp [parse_verdict, hs, hc]
  · simp [calculate_confidence, hne]
  · simp [fact_checker_process, hne]

/-- C9 witness: the three canonical verdicts, a concrete mean, and the
empty-extraction skip. -/
theorem C9_witness :
    parse_verdict "SUPPORTED" = (9/10, true) ∧
    parse_verdict "CONTRADICTED" = (1/10, false) ∧
    parse_verdict "UNCLEAR" = (1/2, false) ∧
    calculate_confidence [⟨"a", true, 9/10, "", []⟩, ⟨"b", false, 1/10, "", []⟩] = 1/2 ∧
    fact_checker_process "draft" [] [] [] (Except.error "x") =
      ⟨"draft", 19/20, true, 0, none, []⟩ := by
  refine ⟨C9_fact_checker_confidence.1 "SUPPORTED" (by decide),
    C9_fact_checker_confidence.2.1 "CONTRADICTED" (by decide) (by decide),
    C9_fact_checker_confidence.2.2.1 "UNCLEAR" (by decide) (by decide),
    ?_, C9_fact_checker_confidence.2.2.2.2.2.1 "draft" [] [] (Except.error "x")⟩
  rw [C9_fact_checker_confidence.2.2.2.1 _ (by decide)]
  norm_num

/-! ## C5 — strict tier ordering of `smart_search` -/

/-- C5: when tier 1 (Brave) yields a non-empty list, tiers 2 and 3 are not
attempted — even when fewer than `count` results came back — and the
response is built from the tier-1 results; tier 2 (Tavily) is attempted
only when tier 1 produced zero results (which covers a missing key, an
exhausted quota, and an empty or failed reply). -/
theorem C5_smart_search_tiering (env : SearchEnv) (q : String) (count : Nat) :
    ((smart_search env q count).brave_results ≠ [] →
      ("tavily" ∉ (smart_search env q count).attempted ∧
       "groq" ∉ (smart_search env q count).attempted ∧
       (smart_search env q count).response.results = (smart_search env q count).brave_results ∧
       (smart_search env q count).response.source = some "brave" ∧
       (smart_search env q count).response.is_fallback = false)) ∧
    ("tavily" ∈ (smart_search env q count).attempted →
      (smart_search env q count).brave_results = []) := by
  cases hb : env.brave_key && can_use env.usage "brave" with
  | false =>
    have hempty : (smart_search env q count).brave_results = [] := by
      simp only [smart_search, hb]
      repeat' split
      all_goals first | rfl | simp_all
    exact ⟨fun hne => absurd hempty hne, fun _ => hempty⟩
  | true =>
    rcases hsb : search_brave env count with ⟨rs, u1⟩
    cases rs with
    | nil =>
      have hempty : (smart_search env q count).brave_results = [] := by
        simp only [smart_search, hb, hsb]
        repeat' split
        all_goals first | rfl | simp_all
      exact ⟨fun hne => absurd hempty hne, fun _ => hempty⟩
    | cons a l =>
      have hatt : (smart_search env q count).attempted = ["brave"] := by
        simp [smart_search, hb, hsb]
      have hrr : (smart_search env q count).response.results =
          (smart_search env q count).brave_results := by
        simp [smart_search, hb, hsb]
      have hsrc : (smart_search env q count).response.source = some "brave" := by
        simp [smart_search, hb, hsb]
      have hfb : (smart_search env q count).response.is_fallback = false := by
        simp [smart_search, hb, hsb]
      refine ⟨fun _ => ⟨?_, ?_, hrr, hsrc, hfb⟩, fun hmem => ?_⟩
      · rw [hatt]
        exact fun hc => absurd (List.mem_singleton.mp hc) (by decide)
      · rw [hatt]
        exact fun hc => absurd (List.mem_singleton.mp hc) (by decide)
      · rw [hatt] at hmem
        exact absurd (List.mem_singleton.mp hmem) (by decide)

/-- C5 witness: with a keyed, under-quota Brave returning a single result
for a requested count of 5, only Brave is attempted. -/
theorem C5_witness :
    "tavily" ∉ (smart_search
        ⟨true, true, ⟨"2025-11", []⟩,
         some [⟨"t", "u", "d", "brave", false⟩], none, none, Except.error "no groq"⟩
        "query" 5).attempted ∧
    "groq" ∉ (smart_search
        ⟨true, true, ⟨"2025-11", []⟩,
         some [⟨"t", "u", "d", "brave", false⟩], none, none, Except.error "no groq"⟩
        "query" 5).attempted :=
  ⟨((C5_smart_search_tiering
      ⟨true, true, ⟨"2025-11", []⟩,
       some [⟨"t", "u", "d", "brave", false⟩], none, none, Except.error "no groq"⟩
      "query" 5).1 (by decide)).1,
   ((C5_smart_search_tiering
      ⟨true, true, ⟨"2025-11", []⟩,
       some [⟨"t", "u", "d", "brave", false⟩], none, none, Except.error "no groq"⟩
      "query" 5).1 (by decide)).2.1⟩

/-! ## C8 — the greeting fast path of the orchestrator -/

/-- C8: for the message "Hello" with no forced agent, the fast-path
classification picks intent `general` and the general handler without
consulting the LLM router, the Critic, Cross-Verifier and Fact-Checker are
all skipped, and the returned metadata reads `reviewed = true`,
`verified = false`. -/
theorem C8_hello_fast_path (verify_facts : Bool) (memory_hits : Nat) (ro : RouterOracle)
    (agentOut : AgentOutcome) (critic_review : String) (sv : Services) (senv : SearchEnv)
    (jira : JiraEnv) (oc : CallOutcomes) (fc_claims : List String)
    (fc_envs : List ClaimCheckEnv) (fc_rewrite : Except String String) :
    (process_message "Hello" none verify_facts memory_hits ro agentOut critic_review
        sv senv jira oc fc_claims fc_envs fc_rewrite).intent = "general" ∧
    (process_message "Hello" none verify_facts memory_hits ro agentOut critic_review
        sv senv jira oc fc_claims fc_envs fc_rewrite).agent_used = "GeneralAgent" ∧
    (process_message "Hello" none verify_facts memory_hits ro agentOut critic_review
        sv senv jira oc fc_claims fc_envs fc_rewrite).router_invoked = false ∧
    (process_message "Hello" none verify_facts memory_hits ro agentOut critic_review
        sv senv jira oc fc_claims fc_envs fc_rewrite).critic_invoked = false ∧
    (process_message "Hello" none verify_facts memory_hits ro agentOut critic_review
        sv senv jira oc fc_claims fc_envs fc_rewrite).cross_verifier_invoked = false ∧
    (process_message "Hello" none verify_facts memory_hits ro agentOut critic_review
        sv senv jira oc fc_claims fc_envs fc_rewrite).fact_checker_invoked = false ∧
    (process_message "Hello" none verify_facts memory_hits ro agentOut critic_review
        sv senv jira oc fc_claims fc_envs fc_rewrite).reviewed = true ∧
    (process_message "Hello" none verify_facts memory_hits ro agentOut critic_review
        sv senv jira oc fc_claims fc_envs fc_rewrite).verified = false := by
  cases verify_facts <;> exact ⟨rfl, rfl, rfl, rfl, rfl, rfl, rfl, rfl⟩

/-! ## Router lemmas shared by C2, C3, C7 and C10 -/

theorem primaryAttempt_snd (provider : String) (fast : Bool) (vars : Option (Bool × Bool))
    (sv : Services) (oc : CallOutcomes) (jira : JiraEnv) :
    (primaryAttempt provider fast vars sv oc jira).2 = [] ∨
    (primaryAttempt provider fast vars sv oc jira).2 = [provider] := by
  unfold primaryAttempt
  repeat' split
  all_goals simp_all

theorem primaryAttempt_ok_inv (provider : String) (fast : Bool) (vars : Option (Bool × Bool))
    (sv : Services) (oc : CallOutcomes) (jira : JiraEnv) (r : GenResult) (att : List String)
    (h : primaryAttempt provider fast vars sv oc jira = (some r, att)) :
    r.error = none ∧ r.fallback = false := by
  unfold primaryAttempt at h
  repeat' split at h
  all_goals simp_all
  all_goals (obtain ⟨h1, h2⟩ := h; subst h1; exact ⟨rfl, rfl⟩)

theorem primaryAttempt_all_fail (provider : String) (fast : Bool) (vars : Option (Bool × Bool))
    (sv : Services) (oc : CallOutcomes) (jira : JiraEnv) (e1 e2 e3 e4 e5 : String)
    (h1 : oc.groq = Except.error e1) (h2 : oc.openrouter = Except.error e2)
    (h3 : oc.xai = Except.error e3) (h4 : oc.gemini_primary = Except.error e4)
    (h5 : oc.ollama_primary = Except.error e5) :
    (primaryAttempt provider fast vars sv oc jira).1 = none := by
  unfold primaryAttempt
  repeat' split
  all_goals simp_all

theorem generateExec_error_inv (provider : String) (fast : Bool) (vars : Option (Bool × Bool))
    (sv : Services) (oc : CallOutcomes) (jira : JiraEnv) :
    (generateExec provider fast vars sv oc jira).result.error = none ∨
    ((generateExec provider fast vars sv oc jira).result.response = apologyText ∧
     (generateExec provider fast vars sv oc jira).result.fallback = true) := by
  rcases hpa : primaryAttempt provider fast vars sv oc jira with ⟨res, att⟩
  unfold generateExec
  rw [hpa]
  rcases res with _ | r
  · rcases vars with _ | v
    · cases hsv : sv.ollama_available <;> cases hgs : oc.gemini_safety <;> simp [hsv, hgs]
    · cases hsv : sv.ollama_available
      · cases hgs : oc.gemini_safety <;> simp [hsv, hgs]
      · rcases hob : oc.ollama_backup with e | ⟨vr, vm⟩
        · cases hgs : oc.gemini_safety <;> simp [hsv, hob, hgs]
        · simp [hsv, hob]
  · exact Or.inl (primaryAttempt_ok_inv provider fast vars sv oc jira r att hpa).1

theorem generateExec_all_fail (provider : String) (fast : Bool) (vars : Option (Bool × Bool))
    (sv : Services) (oc : CallOutcomes) (jira : JiraEnv) (e1 e2 e3 e4 e5 e6 e7 : String)
    (h1 : oc.groq = Except.error e1) (h2 : oc.openrouter = Except.error e2)
    (h3 : oc.xai = Except.error e3) (h4 : oc.gemini_primary = Except.error e4)
    (h5 : oc.ollama_primary = Except.error e5) (h6 : oc.ollama_backup = Except.error e6)
    (h7 : oc.gemini_safety = Except.error e7) :
    (generateExec provider fast vars sv oc jira).result =
      ⟨apologyText, none, none, true, some e7⟩ := by
  rcases hpa : primaryAttempt provider fast vars sv oc jira with ⟨res, att⟩
  have hres : res = none := by
    have hh := primaryAttempt_all_fail provider fast vars sv oc jira e1 e2 e3 e4 e5 h1 h2 h3 h4 h5
    rw [hpa] at hh
    exact hh
  subst hres
  unfold generateExec
  rw [hpa]
  rcases vars with _ | v
  · cases hsv : sv.ollama_available <;> simp [hsv, h7]
  · cases hsv : sv.ollama_available
    · simp [hsv, h7]
    · simp [hsv, h6, h7]

theorem sublist_cell (x : String) (l : List String) (h : l = [] ∨ l = [x]) :
    List.Sublist l [x] := by
  rcases h with rfl | rfl
  · exact List.nil_sublist _
  · exact List.Sublist.refl _

theorem sublist_three (p : String) (l1 l2 l3 : List String)
    (h1 : l1 = [] ∨ l1 = [p]) (h2 : l2 = [] ∨ l2 = ["ollama"])
    (h3 : l3 = [] ∨ l3 = ["gemini"]) :
    List.Sublist (l1 ++ l2 ++ l3) [p, "ollama", "gemini"] :=
  ((sublist_cell p l1 h1).append (sublist_cell "ollama" l2 h2)).append
    (sublist_cell "gemini" l3 h3)

theorem sublist_aux1 (p : String) (att : List String) (h : List.Sublist att [p]) :
    List.Sublist att [p, "ollama", "gemini"] :=
  h.trans (List.sublist_append_left [p] ["ollama", "gemini"])

theorem sublist_aux2 (p : String) (att : List String) (h : List.Sublist att [p]) :
    List.Sublist (att ++ ["gemini"]) [p, "ollama", "gemini"] :=
  h.append (List.Sublist.cons "ollama" (List.Sublist.refl ["gemini"]))

theorem sublist_aux3 (p : String) (att : List String) (h : List.Sublist att [p]) :
    List.Sublist (att ++ ["ollama"]) [p, "ollama", "gemini"] :=
  (h.append (List.Sublist.refl ["ollama"])).trans
    (List.sublist_append_left [p, "ollama"] ["gemini"])

theorem sublist_aux4 (p : String) (att : List String) (h : List.Sublist att [p]) :
    List.Sublist (att ++ ["ollama", "gemini"]) [p, "ollama", "gemini"] :=
  h.append (List.Sublist.refl ["ollama", "gemini"])

theorem generateExec_attempts_sublist (provider : String) (fast : Bool)
    (vars : Option (Bool × Bool)) (sv : Services) (oc : CallOutcomes) (jira : JiraEnv) :
    List.Sublist (generateExec provider fast vars sv oc jira).attempts
      [provider, "ollama", "gemini"] := by
  rcases hpa : primaryAttempt provider fast vars sv oc jira with ⟨res, att⟩
  have hatt := primaryAttempt_snd provider fast vars sv oc jira
  rw [hpa] at hatt
  have hs1 : List.Sublist att [provider] := sublist_cell provider att hatt
  unfold generateExec
  rw [hpa]
  rcases res with _ | r
  · rcases vars with _ | v
    · cases hsv : sv.ollama_available <;> cases hgs : oc.gemini_safety <;>
        simp [hsv, hgs] <;>
        first
          | exact sublist_aux1 provider att hs1
          | exact sublist_aux2 provider att hs1
          | exact sublist_aux3 provider att hs1
          | exact sublist_aux4 provider att hs1
    · cases hsv : sv.ollama_available
      · cases hgs : oc.gemini_safety <;> simp [hsv, hgs] <;>
          first
            | exact sublist_aux1 provider att hs1
            | exact sublist_aux2 provider att hs1
            | exact sublist_aux3 provider att hs1
            | exact sublist_aux4 provider att hs1
      · rcases hob : oc.ollama_backup with e | ⟨vr, vm⟩
        · cases hgs : oc.gemini_safety <;> simp [hsv, hob, hgs] <;>
            first
              | exact sublist_aux1 provider att hs1
              | exact sublist_aux2 provider att hs1
              | exact sublist_aux3 provider att hs1
              | exact sublist_aux4 provider att hs1
        · simp [hsv, hob]
          first
            | exact sublist_aux1 provider att hs1
            | exact sublist_aux2 provider att hs1
            | exact sublist_aux3 provider att hs1
            | exact sublist_aux4 provider att hs1
  · exact sublist_aux1 provider att hs1

theorem generate_attempts_sublist (message sys provider : String) (fast : Bool)
    (sv : Services) (senv : SearchEnv) (jira : JiraEnv) (oc : CallOutcomes) :
    List.Sublist (generate message sys provider fast sv senv jira oc).attempts
      [effectiveProvider message sys provider fast sv senv jira, "ollama", "gemini"] := by
  by_cases h : provider = "auto" <;>
    simp only [generate, effectiveProvider, h, if_true, if_false] <;>
    exact generateExec_attempts_sublist _ _ _ _ _ _

theorem primaryAttempt_vars_none_inv (provider : String) (fast : Bool)
    (sv : Services) (oc : CallOutcomes) (jira : JiraEnv) (r : GenResult) (att : List String)
    (h : primaryAttempt provider fast none sv oc jira = (some r, att)) :
    r.provider = some "gemini" := by
  unfold primaryAttempt at h
  repeat' split at h
  all_goals simp_all
  obtain ⟨h1, h2⟩ := h
  subst h1
  rfl

theorem generateExec_vars_none_gemini (provider : String) (fast : Bool)
    (sv : Services) (oc : CallOutcomes) (jira : JiraEnv) :
    (generateExec provider fast none sv oc jira).result.provider = some "gemini" ∨
    (generateExec provider fast none sv oc jira).result.provider = none := by
  rcases hpa : primaryAttempt provider fast none sv oc jira with ⟨res, att⟩
  unfold generateExec
  rw [hpa]
  rcases res with _ | r
  · cases hsv : sv.ollama_available <;> cases hgs : oc.gemini_safety <;> simp [hsv, hgs]
  · exact Or.inl (primaryAttempt_vars_none_inv provider fast sv oc jira r att hpa)

theorem primaryAttempt_unbound (p : String) (fast : Bool) (sv : Services)
    (oc : CallOutcomes) (jira : JiraEnv)
    (hp : p = "groq" ∨ p = "openrouter" ∨ p = "xai" ∨ p = "ollama") :
    primaryAttempt p fast none sv oc jira = (none, []) := by
  rcases hp with rfl | rfl | rfl | rfl <;>
    · unfold primaryAttempt
      repeat' split
      all_goals simp_all

theorem generateExec_unbound_vars (p : String) (fast : Bool) (sv : Services)
    (oc : CallOutcomes) (jira : JiraEnv)
    (hp : p = "groq" ∨ p = "openrouter" ∨ p = "xai" ∨ p = "ollama") :
    generateExec p fast none sv oc jira =
      ⟨(match oc.gemini_safety with
         | Except.ok text => ⟨text, some "gemini", some "gemini-1.5-flash-cleanup", true, none⟩
         | Except.error e => ⟨apologyText, none, none, true, some e⟩),
        ["gemini"]⟩ := by
  have hpa := primaryAttempt_unbound p fast sv oc jira hp
  unfold generateExec
  rw [hpa]
  cases hsv : sv.ollama_available <;> cases hgs : oc.gemini_safety <;> simp [hsv, hgs]

/-! ## C2 — the router never throws and degrades to an apology -/

/-- C2: `ModelRouter.generate` is a total function into result
dictionaries — an `error` key appears only on the apology result (with
`fallback = true`) — and when the selected provider and every fallback
tier fail, the returned dictionary carries the user-safe apology string
and the final error. -/
theorem C2_router_never_throws (message sys provider : String) (fast : Bool)
    (sv : Services) (senv : SearchEnv) (jira : JiraEnv) (oc : CallOutcomes) :
    ((generate message sys provider fast sv senv jira oc).result.error = none ∨
     ((generate message sys provider fast sv senv jira oc).result.response = apologyText ∧
      (generate message sys provider fast sv senv jira oc).result.fallback = true)) ∧
    (∀ e1 e2 e3 e4 e5 e6 e7,
      oc.groq = Except.error e1 → oc.openrouter = Except.error e2 →
      oc.xai = Except.error e3 → oc.gemini_primary = Except.error e4 →
      oc.ollama_primary = Except.error e5 → oc.ollama_backup = Except.error e6 →
      oc.gemini_safety = Except.error e7 →
      (generate message sys provider fast sv senv jira oc).result =
        ⟨apologyText, none, none, true, some e7⟩) := by
  constructor
  · by_cases h : provider = "auto" <;>
      simp only [generate, h, if_true, if_false] <;>
      exact generateExec_error_inv _ _ _ _ _ _
  · intro e1 e2 e3 e4 e5 e6 e7 h1 h2 h3 h4 h5 h6 h7
    by_cases h : provider = "auto" <;>
      simp only [generate, h, if_true, if_false] <;>
      exact generateExec_all_fail _ _ _ _ _ _ _ _ _ _ _ _ _ h1 h2 h3 h4 h5 h6 h7

/-- C2 witness: with every provider call failing, a forced-Groq request
returns the apology dictionary carrying the safety-net error. -/
theorem C2_witness :
    (generate "m" "" "groq" false svFix senvFix jiraFix ocAllFail).result =
      ⟨apologyText, none, none, true, some "g"⟩ :=
  (C2_router_never_throws "m" "" "groq" false svFix senvFix jiraFix ocAllFail).2
    "a" "b" "c" "d" "e" "f" "g" rfl rfl rfl rfl rfl rfl rfl

/-! ## C3 — depth of the fallback chain after a primary failure -/

/-- The literal reading of C3: at most one additional provider is ever
attempted after the primary one. -/
def C3_claim : Prop :=
  ∀ (message sys provider : String) (fast : Bool) (sv : Services) (senv : SearchEnv)
    (jira : JiraEnv) (oc : CallOutcomes),
    (generate message sys provider fast sv senv jira oc).attempts.length ≤ 2

/-- C3 fails on the code: an auto-routed request whose Groq primary fails
is retried against Ollama Cloud *and then* the Gemini safety net — three
provider attempts in one call. -/
theorem C3_counterexample : ¬ C3_claim := by
  intro h
  have h3 := h "hi" "" "auto" false svFix senvFix jiraFix ocSafetyOk
  exact absurd h3 (by decide)

/-- C3 (amended): after the primary provider, the router attempts at most
two further providers, in the fixed order Ollama Cloud backup then Gemini
safety net — every attempt list is a sublist of
`[primary, "ollama", "gemini"]`, hence of length at most three. -/
theorem C3_fallback_chain_depth (message sys provider : String) (fast : Bool)
    (sv : Services) (senv : SearchEnv) (jira : JiraEnv) (oc : CallOutcomes) :
    List.Sublist (generate message sys provider fast sv senv jira oc).attempts
      [effectiveProvider message sys provider fast sv senv jira, "ollama", "gemini"] ∧
    (generate message sys provider fast sv senv jira oc).attempts.length ≤ 3 :=
  ⟨generate_attempts_sublist message sys provider fast sv senv jira oc,
   (generate_attempts_sublist message sys provider fast sv senv jira oc).length_le⟩

/-! ## C7 — opposing-provider selection of the Cross-Verifier -/

/-- The literal reading of C7: the Cross-Verifier model invocation is
served by a provider different from the one that produced the draft. -/
def C7_claim : Prop :=
  ∀ (response oq provider_used : String) (sv : Services) (senv : SearchEnv)
    (jira : JiraEnv) (oc : CallOutcomes),
    (cross_verifier_run response oq provider_used sv senv jira oc).1.result.provider ≠
      some provider_used

/-- C7 fails on the code: for a Gemini-produced draft the verifier forces
"groq", but that branch dies on the unbound `is_complex` and the call is
served by the Gemini safety net — the same provider that wrote the
draft. -/
theorem C7_counterexample : ¬ C7_claim := by
  intro h
  exact h "draft" "q" "gemini" svFix senvFix jiraFix ocSafetyOk (by decide)

theorem cross_verifier_run_fst (response oq pu : String) (sv : Services)
    (senv : SearchEnv) (jira : JiraEnv) (oc : CallOutcomes) :
    (cross_verifier_run response oq pu sv senv jira oc).1 =
      generate (verificationPrompt oq response) "" (opposingProvider pu) false sv senv jira oc := by
  simp only [cross_verifier_run, apply_ite]
  split <;> rfl

theorem opposingProvider_ne_auto (pu : String) : opposingProvider pu ≠ "auto" := by
  unfold opposingProvider
  split <;> decide

/-- C7 (amended): because a forced non-Gemini provider dies on the unbound
`is_complex`, the Cross-Verifier invocation is always served by Gemini (or
ends in the apology result with no provider); the opposing-provider
guarantee therefore holds exactly when the draft provider was not Gemini,
and a Gemini draft is re-verified by Gemini itself. -/
theorem C7_cross_verifier_serving_provider (response oq pu : String) (sv : Services)
    (senv : SearchEnv) (jira : JiraEnv) (oc : CallOutcomes) :
    ((cross_verifier_run response oq pu sv senv jira oc).1.result.provider = some "gemini" ∨
     (cross_verifier_run response oq pu sv senv jira oc).1.result.provider = none) ∧
    (pu ≠ "gemini" →
      (cross_verifier_run response oq pu sv senv jira oc).1.result.provider ≠ some pu) := by
  have hfst := cross_verifier_run_fst response oq pu sv senv jira oc
  have hgen : generate (verificationPrompt oq response) "" (opposingProvider pu) false sv senv jira oc =
      generateExec (opposingProvider pu) false none sv oc jira := by
    simp only [generate, opposingProvider_ne_auto pu, if_false]
  have hmain := generateExec_vars_none_gemini (opposingProvider pu) false sv oc jira
  rw [hfst, hgen]
  refine ⟨hmain, fun hne heq => ?_⟩
  rcases hmain with hg | hn
  · rw [heq] at hg
    exact hne (Option.some.inj hg)
  · rw [heq] at hn
    cases hn

/-- C7 witness: a draft attributed to Ollama is indeed verified by a
different provider (the serving provider cannot be Ollama). -/
theorem C7_witness :
    (cross_verifier_run "d" "q" "ollama" svFix senvFix jiraFix ocSafetyOk).1.result.provider ≠
      some "ollama" :=
  (C7_cross_verifier_serving_provider "d" "q" "ollama" svFix senvFix jiraFix ocSafetyOk).2
    (by decide)

/-! ## C10 — forced providers die on the unbound routing locals -/

/-- C10: forcing the provider to "groq", "openrouter", "xai" or "ollama"
makes the chosen branch read `is_complex`/`is_vision`, which are bound
only in the auto block, so a `NameError` is raised before that provider is
invoked; the call is then served by the Gemini safety net (or the apology
result), with `fallback = true` and the requested provider never
attempted. -/
theorem C10_forced_provider_unreachable (message sys : String) (fast : Bool)
    (sv : Services) (senv : SearchEnv) (jira : JiraEnv) (oc : CallOutcomes) (p : String)
    (hp : p = "groq" ∨ p = "openrouter" ∨ p = "xai" ∨ p = "ollama") :
    (generate message sys p fast sv senv jira oc).attempts = ["gemini"] ∧
    p ∉ (generate message sys p fast sv senv jira oc).attempts ∧
    (generate message sys p fast sv senv jira oc).result.provider ≠ some p ∧
    (generate message sys p fast sv senv jira oc).result.fallback = true ∧
    (generate message sys p fast sv senv jira oc).result =
      (match oc.gemini_safety with
       | Except.ok text => ⟨text, some "gemini", some "gemini-1.5-flash-cleanup", true, none⟩
       | Except.error e => ⟨apologyText, none, none, true, some e⟩) := by
  have hne : p ≠ "auto" := by
    rcases hp with rfl | rfl | rfl | rfl <;> decide
  have hgen : generate message sys p fast sv senv jira oc =
      generateExec p fast none sv oc jira := by
    simp only [generate, hne, if_false]
  have hex := generateExec_unbound_vars p fast sv oc jira hp
  rw [hgen, hex]
  have hpg : p ≠ "gemini" := by
    rcases hp with rfl | rfl | rfl | rfl <;> decide
  cases hgs : oc.gemini_safety with
  | ok text =>
    refine ⟨rfl, ?_, ?_, rfl, rfl⟩
    · intro hmem
      exact hpg (List.mem_singleton.mp hmem)
    · intro hq
      exact hpg (Option.some.inj hq).symm
  | error e =>
    refine ⟨rfl, ?_, ?_, rfl, rfl⟩
    · intro hmem
      exact hpg (List.mem_singleton.mp hmem)
    · intro hq
      cases hq

/-- C10 witness: a forced-Groq call with a healthy Groq service never
reaches Groq and is served by the Gemini safety net. -/
theorem C10_witness :
    (generate "m" "" "groq" false svFix senvFix jiraFix ocSafetyOk).attempts = ["gemini"] ∧
    "groq" ∉ (generate "m" "" "groq" false svFix senvFix jiraFix ocSafetyOk).attempts ∧
    (generate "m" "" "groq" false svFix senvFix jiraFix ocSafetyOk).result.provider ≠
      some "groq" :=
  ⟨(C10_forced_provider_unreachable "m" "" false svFix senvFix jiraFix ocSafetyOk "groq"
      (Or.inl rfl)).1,
   (C10_forced_provider_unreachable "m" "" false svFix senvFix jiraFix ocSafetyOk "groq"
      (Or.inl rfl)).2.1,
   (C10_forced_provider_unreachable "m" "" false svFix senvFix jiraFix ocSafetyOk "groq"
      (Or.inl rfl)).2.2.1⟩

end Veda
